import Mathlib

/-!
Verification development for the nfc-reader backend.

Source files embedded here:
* `http_api_server.py` — Flask endpoints `validate_character` and `get_character`
  (field defaulting on served character rows, not-found handling).
* `gemini_service.py` — `GeminiService.add_to_history` (history trimming) and
  `GeminiService.set_character`.
* `http_server.py` — FastAPI `chat` endpoint, `is_duplicate_message`,
  session bookkeeping.

The character cache engine (`cached_feishu_service.py`) and the directory
facade (`character_prompts.py`) are referenced by the code above but their
sources are not in the repository snapshot; they are modelled from the spec
(section 3, 4.1, 4.2), with each such definition marked
`Modelled from the spec:` in its doc comment.

Machine details abstracted: wall-clock times are rationals (for the
1-second duplicate window of `http_server.py`) or naturals (cache TTL
arithmetic); the md5 hash of the serialized message dict is modelled as the
serialized tuple itself (injective hash, collisions ignored).
-/

/-- The fixed fallback voice id, literal from `http_api_server.py` lines 67/120
and `http_server.py` lines 308/318. -/
def defaultVoiceId : String := "moss_audio_af916082-2e36-11f0-92db-0e8893cbb430"

/-- The generic fallback label returned for names of unknown characters;
`http_server.py` line 297 tests `character_name != "AI 助手"` to detect an
unknown id, so this is the label the facade yields on a miss. -/
def fallbackLabel : String := "AI 助手"

/-! ## Character cache engine (modelled from the spec, sections 3 and 4.1) -/

/-- Modelled from the spec: `CharacterRecord` of section 3 — one entry per
character in the cache snapshot (source `cached_feishu_service.py` is absent
from the snapshot). -/
structure CharacterRecord where
  id : Int
  name : String
  prompt : String
  voiceId : String
  available : Bool
deriving DecidableEq, Repr

/-- Modelled from the spec: a raw row from the Remote Character Source
(section 6): field presence is not guaranteed, so every field is optional. -/
structure RawRow where
  id : Option Int
  name : Option String
  prompt : Option String
  voiceId : Option String
  available : Option Bool
deriving DecidableEq, Repr

/-- Modelled from the spec: result of one remote "fetch all character rows"
call (section 6), either the rows or a transport failure. -/
inductive FetchResult where
  | ok (rows : List RawRow)
  | err (msg : String)
deriving DecidableEq, Repr

/-- Modelled from the spec: `RefreshResult` of section 4.1. -/
inductive RefreshResult where
  | Skipped
  | Success (count : Nat)
  | Failed (error : String)
deriving DecidableEq, Repr

/-- True exactly on `RefreshResult.Failed`. -/
def RefreshResult.isFailed : RefreshResult → Bool
  | .Failed _ => true
  | _ => false

/-- True exactly on `RefreshResult.Success`. -/
def RefreshResult.isSuccess : RefreshResult → Bool
  | .Success _ => true
  | _ => false

/-- Modelled from the spec: the cache snapshot plus metadata (section 3):
an atomically-replaceable mapping from character id to record,
`lastRefreshedAt`, and the last refresh failure. -/
structure CacheState where
  snapshot : List (Int × CharacterRecord)
  lastRefreshedAt : Option Nat
  lastError : Option String
deriving DecidableEq, Repr

/-- Modelled from the spec: the snapshot created empty at process start
(section 3, lifecycle). -/
def initialCacheState : CacheState :=
  { snapshot := [], lastRefreshedAt := none, lastError := none }

/-- First-match association lookup on the snapshot list. -/
def lookupId (l : List (Int × CharacterRecord)) (i : Int) : Option CharacterRecord :=
  match l with
  | [] => none
  | (k, v) :: t => if k = i then some v else lookupId t i

/-- Modelled from the spec: `lookup(id) -> CharacterRecord | NotFound`
(section 4.1) — a pure read against the current snapshot. -/
def CacheState.lookup (st : CacheState) (i : Int) : Option CharacterRecord :=
  lookupId st.snapshot i

/-- Modelled from the spec: parsing one raw row into a `CharacterRecord`
(sections 3 and 4.1): the id must be a positive integer; `name` defaults to
`"Character {id}"`, `prompt` to the empty string, `voiceId` to the fixed
fallback voice id, `available` to true. -/
def parseRow (r : RawRow) : Option CharacterRecord :=
  match r.id with
  | none => none
  | some i =>
      if 0 < i then
        some { id := i
               name := r.name.getD ("Character " ++ toString i)
               prompt := r.prompt.getD ""
               voiceId := r.voiceId.getD defaultVoiceId
               available := r.available.getD true }
      else none

/-- Modelled from the spec: all-or-nothing parse of the fetched rows
(section 7, `ParseError`): a single bad row fails the whole refresh. -/
def parseRows : List RawRow → Option (List CharacterRecord)
  | [] => some []
  | r :: t =>
      match parseRow r, parseRows t with
      | some c, some cs => some (c :: cs)
      | _, _ => none

/-- Message recorded in `lastError` when a row fails to parse. -/
def parseErrorMsg : String := "failed to parse character rows"

/-- Modelled from the spec: is the snapshot younger than the TTL
(section 4.1: non-forced refresh skips while the snapshot is younger than
the configured TTL; a never-refreshed snapshot is never young)? -/
def CacheState.isYoung (st : CacheState) (now ttl : Nat) : Bool :=
  match st.lastRefreshedAt with
  | some t => decide (now - t < ttl)
  | none => false

/-- Modelled from the spec: `refresh(force) -> RefreshResult` (section 4.1).
If `force` is false and the snapshot is younger than the TTL, skip.
Otherwise fetch (the outcome of the bounded remote call is the `fetch`
argument); on transport failure or parse failure keep the snapshot and
record `lastError`; only when fetch and parse both succeed, atomically swap
the snapshot. The third component reports whether a remote fetch was
performed. -/
def CacheState.refresh (st : CacheState) (force : Bool) (now ttl : Nat)
    (fetch : FetchResult) : CacheState × RefreshResult × Bool :=
  if !force && st.isYoung now ttl then
    (st, .Skipped, false)
  else
    match fetch with
    | .err e => ({ st with lastError := some e }, .Failed e, true)
    | .ok rows =>
        match parseRows rows with
        | none => ({ st with lastError := some parseErrorMsg }, .Failed parseErrorMsg, true)
        | some recs =>
            ({ snapshot := recs.map (fun c => (c.id, c))
               lastRefreshedAt := some now
               lastError := none }, .Success recs.length, true)

/-- Modelled from the spec: `CacheStatus` payload (sections 4.1 and 6). -/
structure CacheStatus where
  entryCount : Nat
  lastRefreshedAt : Option Nat
  isStale : Bool
  lastError : Option String
deriving DecidableEq, Repr

/-- Modelled from the spec: `getStatus()` (section 4.1) — always succeeds,
never calls the remote source. -/
def CacheState.getStatus (st : CacheState) (now ttl : Nat) : CacheStatus :=
  { entryCount := st.snapshot.length
    lastRefreshedAt := st.lastRefreshedAt
    isStale := match st.lastRefreshedAt with
               | some t => decide (ttl < now - t)
               | none => true
    lastError := st.lastError }

/-! ## Character directory facade (modelled from the spec, section 4.2) -/

/-- Modelled from the spec: `nameFor(id)` of the directory facade
(`character_prompts.py`, absent from the snapshot): cached name, or the
generic fallback label when the id is absent. -/
def nameFor (st : CacheState) (i : Int) : String :=
  match st.lookup i with
  | some r => r.name
  | none => fallbackLabel

/-- Modelled from the spec: `voiceIdFor(id)` of the directory facade:
cached voice id, or the fixed default voice id when the id is absent. -/
def voiceIdFor (st : CacheState) (i : Int) : String :=
  match st.lookup i with
  | some r => r.voiceId
  | none => defaultVoiceId

/-- Modelled from the spec: run a sequence of refresh calls
`(force, now, fetch outcome)` against the engine, timer-triggered or
forced (section 4.1); reads never change the state, so only refreshes
appear. -/
def runRefreshes (ttl : Nat) : CacheState → List (Bool × Nat × FetchResult) → CacheState
  | st, [] => st
  | st, c :: rest => runRefreshes ttl (st.refresh c.1 c.2.1 ttl c.2.2).1 rest

/-- The run contains no successful refresh: every call in the sequence
returns `Skipped` or `Failed`. -/
def noSuccessRun (ttl : Nat) : CacheState → List (Bool × Nat × FetchResult) → Prop
  | _, [] => True
  | st, c :: rest =>
      ((st.refresh c.1 c.2.1 ttl c.2.2).2.1).isSuccess = false ∧
      noSuccessRun ttl (st.refresh c.1 c.2.1 ttl c.2.2).1 rest

/-! ## `gemini_service.py` -/

/-- One entry of `GeminiService.conversation_history`: the dict
`{'role': ..., 'content': ..., 'timestamp': ...}` built in
`add_to_history`. -/
structure HistoryMsg where
  role : String
  content : String
  timestamp : String
deriving DecidableEq, Repr

/-- `self.max_history_length = 50` from `GeminiService.__init__`. -/
def maxHistoryLength : Nat := 50

/-- `GeminiService.add_to_history`: append the message, then if the history
exceeds `max_history_length`, keep only the last `max_history_length`
entries (`self.conversation_history[-self.max_history_length:]`). -/
def addToHistory (hist : List HistoryMsg) (m : HistoryMsg) : List HistoryMsg :=
  let h := hist ++ [m]
  if maxHistoryLength < h.length then h.drop (h.length - maxHistoryLength) else h

/-- The mutable state of a `GeminiService`: conversation history and the
current character id (`current_character_id`, initially 1). -/
structure GeminiState where
  conversationHistory : List HistoryMsg
  currentCharacterId : Int
deriving DecidableEq, Repr

/-- `GeminiService.set_character`: if the id is among the available
characters (keys of `get_available_characters()`, passed here as `avail`),
set `current_character_id`; otherwise only log a warning and change
nothing. -/
def setCharacter (avail : List Int) (st : GeminiState) (cid : Int) : GeminiState :=
  if cid ∈ avail then { st with currentCharacterId := cid } else st

/-! ## `http_api_server.py` -/

/-- The character payload built by `validate_character` / `get_character`:
`character_data.get(...)` with the documented defaults; `character_id` has
no default (`None` when absent). -/
structure ApiCharData where
  character_id : Option Int
  name : String
  prompt : String
  voice_id : String
  available : Bool
deriving DecidableEq, Repr

/-- Field defaulting shared by `validate_character` and `get_character`
(`http_api_server.py` lines 63-69 and 116-122): `name` defaults to
`"Character {char_id}"` for the requested id, `prompt` to `""`, `voice_id`
to the fixed fallback voice id, `available` to `True`; present fields pass
through unchanged. -/
def serveCharacterData (charId : Int) (d : RawRow) : ApiCharData :=
  { character_id := d.id
    name := d.name.getD ("Character " ++ toString charId)
    prompt := d.prompt.getD ""
    voice_id := d.voiceId.getD defaultVoiceId
    available := d.available.getD true }

/-- A Flask JSON response from `http_api_server.py`: HTTP status code,
`success` flag, optional `message`, optional character payload. -/
structure ApiResponse where
  status : Nat
  success : Bool
  message : Option String
  data : Option ApiCharData
deriving DecidableEq, Repr

/-- `validate_character` from `http_api_server.py`: 500 when the Feishu
service failed to initialize, 400 when the path segment is not an integer
(`parsedId` is the outcome of `int(character_id)`), otherwise look up the
row (`feishu_service.get_character_full_data`, modelled by `fetch`); a
found row is served with defaults, an absent row yields a 404 error
response. -/
def validate_character (serviceUp : Bool) (parsedId : Option Int)
    (fetch : Int → Option RawRow) : ApiResponse :=
  if !serviceUp then
    { status := 500, success := false, message := some "Feishu service not available", data := none }
  else
    match parsedId with
    | none =>
        { status := 400, success := false, message := some "Character ID must be a number", data := none }
    | some cid =>
        match fetch cid with
        | some d =>
            { status := 200, success := true
              message := some "Character ID validated successfully"
              data := some (serveCharacterData cid d) }
        | none =>
            { status := 404, success := false
              message := some ("Character ID " ++ toString cid ++ " not found"), data := none }

/-- `get_character` from `http_api_server.py`: same branches as
`validate_character`, without the success message. -/
def get_character (serviceUp : Bool) (parsedId : Option Int)
    (fetch : Int → Option RawRow) : ApiResponse :=
  if !serviceUp then
    { status := 500, success := false, message := some "Feishu service not available", data := none }
  else
    match parsedId with
    | none =>
        { status := 400, success := false, message := some "Character ID must be a number", data := none }
    | some cid =>
        match fetch cid with
        | some d =>
            { status := 200, success := true, message := none
              data := some (serveCharacterData cid d) }
        | none =>
            { status := 404, success := false
              message := some ("Character ID " ++ toString cid ++ " not found"), data := none }

/-! ## `http_server.py` -/

/-- The `message_data` dict hashed by `is_duplicate_message` in the `chat`
endpoint: `{"type": ..., "text": ..., "character_id": ...}`. -/
structure MsgData where
  msgType : String
  text : String
  characterId : Option Int
deriving DecidableEq, Repr

/-- A key of `recent_messages`: `f"{client_id}_{message_type}_{message_hash}"`,
with the md5 hash of the serialized `message_data` modelled as the data
itself. -/
abbrev MsgKey := String × String × MsgData

/-- Dict read `recent_messages[message_key]` on the association list. -/
def lookupKey (l : List (MsgKey × ℚ)) (k : MsgKey) : Option ℚ :=
  match l with
  | [] => none
  | (k', v) :: t => if k' = k then some v else lookupKey t k

/-- Dict write `recent_messages[message_key] = current_time`: replace the
entry if present, else append. -/
def upsertKey (l : List (MsgKey × ℚ)) (k : MsgKey) (v : ℚ) : List (MsgKey × ℚ) :=
  match l with
  | [] => [(k, v)]
  | (k', v') :: t => if k' = k then (k, v) :: t else (k', v') :: upsertKey t k v

/-- Insertion into a list kept sorted by recorded time (used to model
`sorted(recent_messages.keys(), key=lambda k: recent_messages[k])`). -/
def insertByTime (e : MsgKey × ℚ) : List (MsgKey × ℚ) → List (MsgKey × ℚ)
  | [] => [e]
  | x :: t => if e.2 ≤ x.2 then e :: x :: t else x :: insertByTime e t

/-- Sort the recent-message entries by recorded time. -/
def sortByTime (l : List (MsgKey × ℚ)) : List (MsgKey × ℚ) :=
  l.foldr insertByTime []

/-- The cleanup in `is_duplicate_message`: when more than 100 entries are
stored, delete the 50 oldest keys. -/
def cleanupRecent (l : List (MsgKey × ℚ)) : List (MsgKey × ℚ) :=
  if 100 < l.length then
    let oldKeys := ((sortByTime l).take 50).map (fun e => e.1)
    l.filter (fun e => decide (e.1 ∉ oldKeys))
  else l

/-- `is_duplicate_message` from `http_server.py`: build the key from client
id, message type and hashed message data; if the key was recorded less than
1.0 seconds ago, report a duplicate without touching the store; otherwise
record the current time, clean up, and report not-duplicate. Returns the
flag and the updated `recent_messages`. -/
def isDuplicateMessage (clientId msgType : String) (mdata : MsgData) (now : ℚ)
    (recent : List (MsgKey × ℚ)) : Bool × List (MsgKey × ℚ) :=
  let key : MsgKey := (clientId, msgType, mdata)
  match lookupKey recent key with
  | some t =>
      if now - t < 1 then (true, recent)
      else (false, cleanupRecent (upsertKey recent key now))
  | none => (false, cleanupRecent (upsertKey recent key now))

/-- One entry of a session's `messages` list in `chat_sessions`. -/
structure SessionMsg where
  text : String
  isUser : Bool
  timestamp : String
  isError : Bool
deriving DecidableEq, Repr

/-- One value of `chat_sessions`: message list, selected character id
(initially 1), creation time. -/
structure Session where
  messages : List SessionMsg
  characterId : Int
  createdAt : String
deriving DecidableEq, Repr

/-- `get_or_create_session`: create an empty session with character id 1 if
the connection id is new. -/
def getOrCreateSession (sid : String) (nowIso : String)
    (sessions : List (String × Session)) : List (String × Session) :=
  if sessions.any (fun e => e.1 = sid) then sessions
  else sessions ++ [(sid, { messages := [], characterId := 1, createdAt := nowIso })]

/-- `session["character_id"] = request.character_id` on the session keyed
by `sid`. -/
def setSessionCharacter (sid : String) (cid : Int)
    (sessions : List (String × Session)) : List (String × Session) :=
  sessions.map (fun e => if e.1 = sid then (e.1, { e.2 with characterId := cid }) else e)

/-- `session["messages"].append(m)` on the session keyed by `sid`. -/
def appendSessionMessage (sid : String) (m : SessionMsg)
    (sessions : List (String × Session)) : List (String × Session) :=
  sessions.map (fun e => if e.1 = sid then (e.1, { e.2 with messages := e.2.messages ++ [m] }) else e)

/-- The `ChatRequest` pydantic model. -/
structure ChatRequest where
  reqType : String
  text : String
  characterId : Option Int
  streaming : Option Bool
  connectionId : Option String
deriving DecidableEq, Repr

/-- The `ChatResponse` pydantic model. -/
structure ChatResponse where
  response : String
  voiceId : Option String
  characterId : Option Int
  characterName : Option String
  success : Bool
  error : Option String
  timestamp : Option String
deriving DecidableEq, Repr

/-- The module-level mutable state of `http_server.py`: `chat_sessions`,
`recent_messages`, and the shared `gemini_service`. -/
structure ServerState where
  chatSessions : List (String × Session)
  recentMessages : List (MsgKey × ℚ)
  gemini : GeminiState
deriving DecidableEq, Repr

/-- The state effect of `GeminiService.send_message` up to the model call:
the user message is appended to the history, and `current_character_id` is
overwritten by a supplied `character_id` differing from it (no availability
check there, `gemini_service.py` lines 134-139). -/
def sendMessagePre (g : GeminiState) (characterId : Option Int)
    (text nowIso : String) : GeminiState :=
  let g1 :=
    match characterId with
    | some c => if c ≠ g.currentCharacterId then { g with currentCharacterId := c } else g
    | none => g
  { g1 with conversationHistory := addToHistory g1.conversationHistory ⟨"user", text, nowIso⟩ }

/-- Python truthiness of `request.character_id` (`Optional[int]`):
`None` and `0` are falsy. -/
def truthyId : Option Int → Bool
  | some c => decide (c ≠ 0)
  | none => false

/-- The `chat` endpoint (`http_server.py` lines 195-288). External effects
are passed as arguments: `now` is `time.time()`, `nowIso` the
`datetime.now().isoformat()` string, `tempId` the generated uuid for
connections without id, `avail` the available-characters mapping keys used
by `set_character`, `cache` the snapshot behind `get_character_name` /
`get_character_voice_id`, and `outcome` the result of the Gemini model
call (`Except.error` models a raised exception, caught by the endpoint's
`except` clause). Returns the HTTP-layer response and the new server
state. -/
def chatHandler (cache : CacheState) (avail : List Int) (req : ChatRequest)
    (now : ℚ) (nowIso tempId : String) (outcome : Except String String)
    (st : ServerState) : ChatResponse × ServerState :=
  let clientId := req.connectionId.getD "anonymous"
  let mdata : MsgData := ⟨req.reqType, req.text, req.characterId⟩
  let dup := isDuplicateMessage clientId req.reqType mdata now st.recentMessages
  if dup.1 then
    ({ response := "", voiceId := none, characterId := none, characterName := none
       success := false, error := some "Duplicate message", timestamp := none },
     { st with recentMessages := dup.2 })
  else
    let sid := req.connectionId.getD tempId
    let sessions1 := getOrCreateSession sid nowIso st.chatSessions
    let sessions2 :=
      if truthyId req.characterId then
        setSessionCharacter sid (req.characterId.getD 0) sessions1
      else sessions1
    let sessions3 := appendSessionMessage sid ⟨req.text, true, nowIso, false⟩ sessions2
    if req.reqType = "text" ∨ req.reqType = "gemini_chat" then
      -- the endpoint's forced character update, with availability check
      let g1 :=
        if truthyId req.characterId ∧ req.characterId.getD 0 ≠ st.gemini.currentCharacterId then
          setCharacter avail st.gemini (req.characterId.getD 0)
        else st.gemini
      let g2 := sendMessagePre g1 req.characterId req.text nowIso
      match outcome with
      | .error e =>
          ({ response := "", voiceId := none, characterId := none, characterName := none
             success := false, error := some ("Gemini API error: " ++ e), timestamp := none },
           { chatSessions := sessions3, recentMessages := dup.2, gemini := g2 })
      | .ok answer =>
          let g3 := { g2 with
                      conversationHistory := addToHistory g2.conversationHistory
                        ⟨"assistant", answer, nowIso⟩ }
          let cid := if truthyId req.characterId then req.characterId.getD 0
                     else g3.currentCharacterId
          let sessions4 := appendSessionMessage sid ⟨answer, false, nowIso, false⟩ sessions3
          ({ response := answer, voiceId := some (voiceIdFor cache cid)
             characterId := some cid, characterName := some (nameFor cache cid)
             success := true, error := none, timestamp := some nowIso },
           { chatSessions := sessions4, recentMessages := dup.2, gemini := g3 })
    else
      ({ response := "", voiceId := none, characterId := none, characterName := none
         success := false
         error := some ("400: Unsupported message type: " ++ req.reqType)
         timestamp := none },
       { chatSessions := sessions3, recentMessages := dup.2, gemini := st.gemini })

/-! ## Helper lemmas -/

/-- A refresh that does not return `Success` leaves the snapshot mapping
and `lastRefreshedAt` untouched. -/
theorem refresh_not_success_frame (st : CacheState) (force : Bool) (now ttl : Nat)
    (fetch : FetchResult)
    (h : ((st.refresh force now ttl fetch).2.1).isSuccess = false) :
    (st.refresh force now ttl fetch).1.snapshot = st.snapshot ∧
    (st.refresh force now ttl fetch).1.lastRefreshedAt = st.lastRefreshedAt := by
  by_cases hc : (!force && st.isYoung now ttl) = true
  · simp [CacheState.refresh, hc]
  · cases fetch with
    | err e => simp [CacheState.refresh, hc]
    | ok rows =>
        cases hp : parseRows rows with
        | none => simp [CacheState.refresh, hc, hp]
        | some recs =>
            simp [CacheState.refresh, hc, hp, RefreshResult.isSuccess] at h

/-! ## Claim theorems -/

/-- C1: for every cache state with a previously successful snapshot, a
refresh whose remote fetch or row parse fails leaves the snapshot mapping
and `lastRefreshedAt` exactly as they were (every lookup returns the same
result as before) and sets `getStatus().lastError` to a non-null value. -/
theorem refresh_failed_preserves_snapshot
    (st : CacheState) (force : Bool) (now ttl t : Nat) (fetch : FetchResult)
    (_hprev : st.lastRefreshedAt = some t)
    (hfail : ((st.refresh force now ttl fetch).2.1).isFailed = true) :
    (st.refresh force now ttl fetch).1.snapshot = st.snapshot ∧
    (st.refresh force now ttl fetch).1.lastRefreshedAt = st.lastRefreshedAt ∧
    (∀ i, (st.refresh force now ttl fetch).1.lookup i = st.lookup i) ∧
    (((st.refresh force now ttl fetch).1.getStatus now ttl).lastError).isSome = true := by
  by_cases hc : (!force && st.isYoung now ttl) = true
  · simp [CacheState.refresh, hc, RefreshResult.isFailed] at hfail
  · cases fetch with
    | err e => simp [CacheState.refresh, hc, CacheState.lookup, CacheState.getStatus]
    | ok rows =>
        cases hp : parseRows rows with
        | none =>
            simp [CacheState.refresh, hc, hp, CacheState.lookup, CacheState.getStatus]
        | some recs =>
            simp [CacheState.refresh, hc, hp, RefreshResult.isFailed] at hfail

/-- C1 witness: a concrete previously-refreshed one-entry cache survives a
failing fetch unchanged, with a recorded error. -/
theorem refresh_failed_preserves_snapshot_witness :
    ((⟨[(1, ⟨1, "A", "", "v1", true⟩)], some 5, none⟩ : CacheState).lastRefreshedAt = some 5) ∧
    ((((⟨[(1, ⟨1, "A", "", "v1", true⟩)], some 5, none⟩ : CacheState).refresh true 10 60
        (.err "boom")).2.1).isFailed = true) ∧
    (((⟨[(1, ⟨1, "A", "", "v1", true⟩)], some 5, none⟩ : CacheState).refresh true 10 60
        (.err "boom")).1.snapshot = [(1, ⟨1, "A", "", "v1", true⟩)]) ∧
    ((((⟨[(1, ⟨1, "A", "", "v1", true⟩)], some 5, none⟩ : CacheState).refresh true 10 60
        (.err "boom")).1.getStatus 10 60).lastError).isSome = true := by
  refine ⟨rfl, by decide, ?_, ?_⟩
  · exact (refresh_failed_preserves_snapshot _ true 10 60 5 (.err "boom") rfl (by decide)).1
  · exact (refresh_failed_preserves_snapshot _ true 10 60 5 (.err "boom") rfl
      (by decide)).2.2.2

/-- C4: for every id absent from the snapshot, `nameFor` returns the
generic fallback label and `voiceIdFor` returns the fixed default voice id
(both are total functions, so neither can raise). -/
theorem unknown_id_fallback (st : CacheState) (i : Int)
    (h : st.lookup i = none) :
    nameFor st i = fallbackLabel ∧ voiceIdFor st i = defaultVoiceId := by
  unfold nameFor voiceIdFor
  rw [h]
  exact ⟨rfl, rfl⟩

/-- C4 witness: id 42 in the initial (empty) cache gets the fallback label
and default voice id. -/
theorem unknown_id_fallback_witness :
    initialCacheState.lookup 42 = none ∧
    nameFor initialCacheState 42 = fallbackLabel ∧
    voiceIdFor initialCacheState 42 = defaultVoiceId :=
  ⟨rfl, unknown_id_fallback initialCacheState 42 rfl⟩

/-- C5 counterexample: on a stale snapshot (refreshed at time 0, TTL 60),
two non-forced refreshes at times 100 and 110 — within one TTL window of
each other — both perform a remote fetch, because the first fetch fails and
leaves `lastRefreshedAt` unchanged; so "two non-forced refreshes within one
TTL window cause at most one remote fetch" is false when the first
fails. -/
theorem refresh_ttl_two_fetches_counterexample :
    ((110 : Nat) - 100 < 60) ∧
    ((((⟨[(1, ⟨1, "A", "", "v1", true⟩)], some 0, none⟩ : CacheState).refresh
        false 100 60 (.err "down")).2.1).isFailed = true) ∧
    (((⟨[(1, ⟨1, "A", "", "v1", true⟩)], some 0, none⟩ : CacheState).refresh
        false 100 60 (.err "down")).2.2 = true) ∧
    (((((⟨[(1, ⟨1, "A", "", "v1", true⟩)], some 0, none⟩ : CacheState).refresh
        false 100 60 (.err "down")).1).refresh false 110 60 (.err "down")).2.2 = true) := by
  decide

/-- C5 amended: a non-forced refresh while the snapshot is younger than the
TTL returns `Skipped` and performs no remote fetch; a forced refresh always
performs a fetch; and two successive non-forced refreshes less than one TTL
apart perform at most one fetch provided the first does not fail — when the
first fetch fails, `lastRefreshedAt` is unchanged and the second call
fetches again. -/
theorem refresh_ttl_and_force
    (st : CacheState) (now t t1 t2 ttl : Nat) (f f1 f2 : FetchResult) :
    (st.lastRefreshedAt = some t → now - t < ttl →
        st.refresh false now ttl f = (st, .Skipped, false)) ∧
    ((st.refresh true now ttl f).2.2 = true) ∧
    (t2 - t1 < ttl →
      ((st.refresh false t1 ttl f1).2.1).isFailed = false →
      ¬((st.refresh false t1 ttl f1).2.2 = true ∧
        (((st.refresh false t1 ttl f1).1).refresh false t2 ttl f2).2.2 = true)) := by
  refine ⟨?_, ?_, ?_⟩
  · intro hprev hyoung
    have hy : st.isYoung now ttl = true := by
      unfold CacheState.isYoung
      rw [hprev]
      simpa using hyoung
    simp [CacheState.refresh, hy]
  · cases f with
    | err e => simp [CacheState.refresh]
    | ok rows => cases hp : parseRows rows <;> simp [CacheState.refresh, hp]
  · intro hwin hnofail hboth
    by_cases hy : st.isYoung t1 ttl = true
    · simp [CacheState.refresh, hy] at hboth
    · cases f1 with
      | err e => simp [CacheState.refresh, hy, RefreshResult.isFailed] at hnofail
      | ok rows =>
          cases hp : parseRows rows with
          | none => simp [CacheState.refresh, hy, hp, RefreshResult.isFailed] at hnofail
          | some recs =>
              have hy2 : CacheState.isYoung
                  ⟨recs.map (fun c => (c.id, c)), some t1, none⟩ t2 ttl = true := by
                unfold CacheState.isYoung
                simpa using hwin
              simp [CacheState.refresh, hy, hp, hy2] at hboth

/-- C5 witness: on a cache refreshed at time 5 with TTL 60, a non-forced
refresh at time 10 is skipped without a fetch, and a forced refresh at the
same time fetches; the two-call bound holds at times 10 and 20. -/
theorem refresh_ttl_and_force_witness :
    ((⟨[], some 5, none⟩ : CacheState).refresh false 10 60 (.err "e") =
      ((⟨[], some 5, none⟩ : CacheState), .Skipped, false)) ∧
    (((⟨[], some 5, none⟩ : CacheState).refresh true 10 60 (.err "e")).2.2 = true) ∧
    ¬((((⟨[], some 5, none⟩ : CacheState).refresh false 10 60 (.ok [])).2.2 = true) ∧
      ((((⟨[], some 5, none⟩ : CacheState).refresh false 10 60
          (.ok [])).1).refresh false 20 60 (.ok [])).2.2 = true) := by
  refine ⟨?_, ?_, ?_⟩
  · exact (refresh_ttl_and_force ⟨[], some 5, none⟩ 10 5 10 20 60
      (.err "e") (.ok []) (.ok [])).1 rfl (by decide)
  · exact (refresh_ttl_and_force ⟨[], some 5, none⟩ 10 5 10 20 60
      (.err "e") (.ok []) (.ok [])).2.1
  · exact (refresh_ttl_and_force ⟨[], some 5, none⟩ 10 5 10 20 60
      (.err "e") (.ok []) (.ok [])).2.2 (by decide) (by decide)

/-- C7: in every state reachable without any successful refresh, including
the initial state, the snapshot is empty and every lookup reports
not-found. -/
theorem no_success_empty_snapshot (ttl : Nat) (calls : List (Bool × Nat × FetchResult))
    (h : noSuccessRun ttl initialCacheState calls) :
    (runRefreshes ttl initialCacheState calls).snapshot = [] ∧
    ∀ i, (runRefreshes ttl initialCacheState calls).lookup i = none := by
  have aux : ∀ (cs : List (Bool × Nat × FetchResult)) (st : CacheState),
      st.snapshot = [] → noSuccessRun ttl st cs →
      (runRefreshes ttl st cs).snapshot = [] := by
    intro cs
    induction cs with
    | nil => intro st hs _; exact hs
    | cons c rest ih =>
        intro st hs hns
        unfold noSuccessRun at hns
        unfold runRefreshes
        exact ih _ ((refresh_not_success_frame st c.1 c.2.1 ttl c.2.2 hns.1).1.trans hs) hns.2
  have hempty := aux calls initialCacheState rfl h
  refine ⟨hempty, fun i => ?_⟩
  unfold CacheState.lookup
  rw [hempty]
  rfl

/-- C7 witness: one forced refresh with a failing fetch leaves the
snapshot empty and lookups not-found. -/
theorem no_success_empty_snapshot_witness :
    noSuccessRun 60 initialCacheState [(true, 0, .err "x")] ∧
    (runRefreshes 60 initialCacheState [(true, 0, .err "x")]).snapshot = [] ∧
    (runRefreshes 60 initialCacheState [(true, 0, .err "x")]).lookup 7 = none := by
  have hns : noSuccessRun 60 initialCacheState [(true, 0, .err "x")] := ⟨by decide, trivial⟩
  exact ⟨hns, (no_success_empty_snapshot 60 [(true, 0, .err "x")] hns).1,
    (no_success_empty_snapshot 60 [(true, 0, .err "x")] hns).2 7⟩

/-- Parsing a whole row list all-or-nothing: each successfully parsed row
of the input contributes its record to the output. -/
theorem parseRows_mem {rows : List RawRow} {recs : List CharacterRecord}
    (h : parseRows rows = some recs) {r : RawRow} (hr : r ∈ rows)
    {c : CharacterRecord} (hc : parseRow r = some c) : c ∈ recs := by
  induction rows generalizing recs with
  | nil => cases hr
  | cons a rest ih =>
      unfold parseRows at h
      cases ha : parseRow a with
      | none => rw [ha] at h; cases h
      | some c0 =>
          cases hrest : parseRows rest with
          | none => rw [ha, hrest] at h; cases h
          | some cs =>
              rw [ha, hrest] at h
              injection h with h'
              subst h'
              rcases List.mem_cons.mp hr with h1 | h2
              · subst h1
                rw [ha] at hc
                injection hc with hc
                subst hc
                exact List.mem_cons_self _ _
              · exact List.mem_cons_of_mem _ (ih hrest h2)

/-- On a keyed record list with no duplicate ids, looking up a member's id
yields that member. -/
theorem lookupId_keyed {recs : List CharacterRecord} {c : CharacterRecord}
    (hnd : (recs.map CharacterRecord.id).Nodup) (hc : c ∈ recs) :
    lookupId (recs.map (fun r => (r.id, r))) c.id = some c := by
  induction recs with
  | nil => cases hc
  | cons a rest ih =>
      rw [List.map_cons] at hnd ⊢
      rw [List.nodup_cons] at hnd
      unfold lookupId
      rcases List.mem_cons.mp hc with h1 | h2
      · subst h1
        rw [if_pos rfl]
      · have hne : a.id ≠ c.id := by
          intro he
          exact hnd.1 (he ▸ List.mem_map_of_mem CharacterRecord.id h2)
        rw [if_neg hne]
        exact ih hnd.2 h2

/-- C6: after a successful refresh, every id contained in the fetched rows
resolves via `lookup` to the parsed record of that row (source fields with
defaults applied), and the snapshot is swapped only when fetch and parse
both succeed. -/
theorem refresh_success_serves_rows
    (st : CacheState) (force : Bool) (now ttl : Nat) (rows : List RawRow)
    (recs : List CharacterRecord)
    (hp : parseRows rows = some recs)
    (hnd : (recs.map CharacterRecord.id).Nodup)
    (hgo : force = true ∨ st.isYoung now ttl = false) :
    (∀ r ∈ rows, ∀ c, parseRow r = some c →
        (st.refresh force now ttl (.ok rows)).1.lookup c.id = some c) ∧
    (∀ (force' : Bool) (now' ttl' : Nat) (f' : FetchResult) (st' : CacheState),
        (st'.refresh force' now' ttl' f').1.snapshot ≠ st'.snapshot →
        ((st'.refresh force' now' ttl' f').2.1).isSuccess = true) := by
  constructor
  · intro r hr c hc
    have hcond : (!force && st.isYoung now ttl) = false := by
      rcases hgo with h1 | h2
      · rw [h1]; rfl
      · rw [h2, Bool.and_false]
    unfold CacheState.refresh CacheState.lookup
    simp only [hcond, Bool.false_eq_true, not_false_eq_true, if_false, if_neg, hp]
    exact lookupId_keyed hnd (parseRows_mem hp hr hc)
  · intro force' now' ttl' f' st' hne
    by_cases hs : ((st'.refresh force' now' ttl' f').2.1).isSuccess = true
    · exact hs
    · exact absurd (refresh_not_success_frame st' force' now' ttl' f'
        (Bool.eq_false_iff.mpr hs)).1 hne

/-- C6 witness: refreshing the empty cache with two rows (one missing its
voice id) serves the parsed records: id 1 keeps voice `"v1"`, id 2 gets the
default voice id. -/
theorem refresh_success_serves_rows_witness :
    (parseRows [⟨some 1, some "A", none, some "v1", none⟩,
        ⟨some 2, some "B", none, none, none⟩] =
      some [⟨1, "A", "", "v1", true⟩, ⟨2, "B", "", defaultVoiceId, true⟩]) ∧
    ((initialCacheState.refresh true 0 60
        (.ok [⟨some 1, some "A", none, some "v1", none⟩,
              ⟨some 2, some "B", none, none, none⟩])).1.lookup 1 =
      some ⟨1, "A", "", "v1", true⟩) ∧
    ((initialCacheState.refresh true 0 60
        (.ok [⟨some 1, some "A", none, some "v1", none⟩,
              ⟨some 2, some "B", none, none, none⟩])).1.lookup 2 =
      some ⟨2, "B", "", defaultVoiceId, true⟩) := by
  refine ⟨by simp [parseRows, parseRow, defaultVoiceId], ?_, ?_⟩
  · exact (refresh_success_serves_rows initialCacheState true 0 60 _
        [⟨1, "A", "", "v1", true⟩, ⟨2, "B", "", defaultVoiceId, true⟩]
        (by simp [parseRows, parseRow, defaultVoiceId]) (by decide) (Or.inl rfl)).1
      ⟨some 1, some "A", none, some "v1", none⟩ (by simp)
      ⟨1, "A", "", "v1", true⟩ (by simp [parseRow])
  · exact (refresh_success_serves_rows initialCacheState true 0 60 _
        [⟨1, "A", "", "v1", true⟩, ⟨2, "B", "", defaultVoiceId, true⟩]
        (by simp [parseRows, parseRow, defaultVoiceId]) (by decide) (Or.inl rfl)).1
      ⟨some 2, some "B", none, none, none⟩ (by simp)
      ⟨2, "B", "", defaultVoiceId, true⟩ (by simp [parseRow, defaultVoiceId])

/-- Folding `add_to_history` over a message sequence from the empty history
keeps exactly the last `max_history_length` messages of the sequence. -/
theorem foldl_addToHistory_eq (msgs : List HistoryMsg) :
    msgs.foldl addToHistory [] = msgs.drop (msgs.length - maxHistoryLength) := by
  induction msgs using List.reverseRecOn with
  | nil => simp
  | append_singleton ms m ih =>
      rw [List.foldl_append, List.foldl_cons, List.foldl_nil, ih]
      unfold addToHistory
      simp only [maxHistoryLength, List.length_append, List.length_cons, List.length_nil]
      by_cases hlt : ms.length < 50
      · have h0 : ms.length - 50 = 0 := Nat.sub_eq_zero_of_le (le_of_lt hlt)
        have h0' : ms.length + (0 + 1) - 50 = 0 := by omega
        rw [h0, h0', List.drop_zero, List.drop_zero]
        rw [if_neg (by omega)]
      · have hge : 50 ≤ ms.length := le_of_not_lt hlt
        have hlen : (ms.drop (ms.length - 50)).length = 50 := by
          rw [List.length_drop]
          omega
        have hone : (1 : Nat) ≤ (ms.drop (ms.length - 50)).length := by
          rw [hlen]
          omega
        rw [hlen, if_pos (by omega)]
        have h1 : 50 + (0 + 1) - 50 = 1 := by omega
        rw [h1, List.drop_append_of_le_length hone, List.drop_drop]
        have hle : ms.length + (0 + 1) - 50 ≤ ms.length := by omega
        have harg : ms.length - 50 + 1 = ms.length + (0 + 1) - 50 := by omega
        rw [harg, List.drop_append_of_le_length hle]

/-- C8: for every sequence of `add_to_history` calls, the conversation
history holds at most `max_history_length` (50) messages, and the retained
messages are exactly the most recently added ones, in their original
order. -/
theorem add_to_history_trims (msgs : List HistoryMsg) :
    (msgs.foldl addToHistory []).length ≤ maxHistoryLength ∧
    msgs.foldl addToHistory [] = msgs.drop (msgs.length - maxHistoryLength) := by
  refine ⟨?_, foldl_addToHistory_eq msgs⟩
  rw [foldl_addToHistory_eq, List.length_drop]
  omega

/-- C9: `set_character` with an unavailable id changes nothing at all;
with an available id it sets `current_character_id` to that id (and leaves
the conversation history unchanged). -/
theorem set_character_cases (avail : List Int) (st : GeminiState) (cid : Int) :
    (cid ∉ avail → setCharacter avail st cid = st) ∧
    (cid ∈ avail → (setCharacter avail st cid).currentCharacterId = cid ∧
        (setCharacter avail st cid).conversationHistory = st.conversationHistory) := by
  constructor
  · intro h
    simp [setCharacter, h]
  · intro h
    simp [setCharacter, h]

/-- C9 witness: with available ids `[1, 2, 3]`, id 5 is a no-op and id 2
is selected. -/
theorem set_character_cases_witness :
    (setCharacter [1, 2, 3] ⟨[], 1⟩ 5 = ⟨[], 1⟩) ∧
    (setCharacter [1, 2, 3] ⟨[], 1⟩ 2).currentCharacterId = 2 :=
  ⟨(set_character_cases [1, 2, 3] ⟨[], 1⟩ 5).1 (by decide),
   ((set_character_cases [1, 2, 3] ⟨[], 1⟩ 2).2 (by decide)).1⟩

/-- C2: for every character row returned by the remote source, the served
record applies the documented defaults to absent fields — `name` becomes
`"Character {id}"` for that row's id, `voice_id` the fixed fallback voice
id, `prompt` the empty string, `available` true — while present fields pass
through unchanged; `validate_character` and `get_character` serve the same
record. -/
theorem served_character_defaults (cid : Int) (row : RawRow)
    (fetch : Int → Option RawRow)
    (hfetch : fetch cid = some row)
    (hid : row.id = some cid) :
    (get_character true (some cid) fetch).data =
      some { character_id := some cid
             name := row.name.getD ("Character " ++ toString cid)
             prompt := row.prompt.getD ""
             voice_id := row.voiceId.getD defaultVoiceId
             available := row.available.getD true } ∧
    (validate_character true (some cid) fetch).data =
      (get_character true (some cid) fetch).data ∧
    (∀ n, row.name = some n →
        (serveCharacterData cid row).name = n) ∧
    (∀ p, row.prompt = some p →
        (serveCharacterData cid row).prompt = p) ∧
    (∀ v, row.voiceId = some v →
        (serveCharacterData cid row).voice_id = v) ∧
    (∀ b, row.available = some b →
        (serveCharacterData cid row).available = b) := by
  refine ⟨?_, ?_, ?_, ?_, ?_, ?_⟩
  · simp [get_character, serveCharacterData, hfetch, hid]
  · simp [get_character, validate_character, hfetch]
  · intro n hn
    simp [serveCharacterData, hn]
  · intro p hp
    simp [serveCharacterData, hp]
  · intro v hv
    simp [serveCharacterData, hv]
  · intro b hb
    simp [serveCharacterData, hb]

/-- C2 witness: a row for id 7 with a name but no prompt, voice id or
availability is served as name `"C7"`, empty prompt, default voice id,
available. -/
theorem served_character_defaults_witness :
    (get_character true (some 7)
        (fun _ => some ⟨some 7, some "C7", none, none, none⟩)).data =
      some ⟨some 7, "C7", "", defaultVoiceId, true⟩ ∧
    (serveCharacterData 7 ⟨some 7, some "C7", none, none, none⟩).name = "C7" := by
  constructor
  · have h := (served_character_defaults 7 ⟨some 7, some "C7", none, none, none⟩
      (fun _ => some ⟨some 7, some "C7", none, none, none⟩) rfl rfl).1
    simpa using h
  · exact (served_character_defaults 7 ⟨some 7, some "C7", none, none, none⟩
      (fun _ => some ⟨some 7, some "C7", none, none, none⟩) rfl rfl).2.2.1 "C7" rfl

/-- C10: a chat request whose key (connection id, type, message data) was
recorded less than 1.0 seconds earlier is answered with the duplicate
`ChatResponse` (`success = false`, error `"Duplicate message"`) and the
whole server state — sessions, recent messages, and the Gemini service —
is left untouched; a first-seen key is never classified as a duplicate. -/
theorem duplicate_message_handling
    (cache : CacheState) (avail : List Int) (req : ChatRequest)
    (now : ℚ) (nowIso tempId : String) (outcome : Except String String)
    (st : ServerState) (t : ℚ)
    (hrec : lookupKey st.recentMessages
        (req.connectionId.getD "anonymous", req.reqType,
          ⟨req.reqType, req.text, req.characterId⟩) = some t)
    (hwin : now - t < 1) :
    chatHandler cache avail req now nowIso tempId outcome st =
      ({ response := "", voiceId := none, characterId := none, characterName := none
         success := false, error := some "Duplicate message", timestamp := none }, st) ∧
    (∀ (clientId msgType : String) (mdata : MsgData) (now' : ℚ)
        (recent : List (MsgKey × ℚ)),
        lookupKey recent (clientId, msgType, mdata) = none →
        (isDuplicateMessage clientId msgType mdata now' recent).1 = false) := by
  constructor
  · have hdup : isDuplicateMessage (req.connectionId.getD "anonymous") req.reqType
        ⟨req.reqType, req.text, req.characterId⟩ now st.recentMessages =
        (true, st.recentMessages) := by
      unfold isDuplicateMessage
      simp [hrec, hwin]
    unfold chatHandler
    simp [hdup]
  · intro clientId msgType mdata now' recent hnone
    unfold isDuplicateMessage
    simp [hnone]

/-- C10 witness: a request repeated half a second after it was recorded is
rejected as a duplicate with the state unchanged, and with an empty store
the same request is not a duplicate. -/
theorem duplicate_message_handling_witness :
    (chatHandler initialCacheState [1] ⟨"text", "hi", none, none, some "c1"⟩
        (1/2) "ts" "tmp" (.ok "ans")
        ⟨[], [(("c1", "text", ⟨"text", "hi", none⟩), 0)], ⟨[], 1⟩⟩ =
      ({ response := "", voiceId := none, characterId := none, characterName := none
         success := false, error := some "Duplicate message", timestamp := none },
       ⟨[], [(("c1", "text", ⟨"text", "hi", none⟩), 0)], ⟨[], 1⟩⟩)) ∧
    (isDuplicateMessage "c1" "text" ⟨"text", "hi", none⟩ (1/2) []).1 = false := by
  constructor
  · exact (duplicate_message_handling initialCacheState [1]
      ⟨"text", "hi", none, none, some "c1"⟩ (1/2) "ts" "tmp" (.ok "ans")
      ⟨[], [(("c1", "text", ⟨"text", "hi", none⟩), 0)], ⟨[], 1⟩⟩ 0
      (by decide) (by norm_num)).1
  · exact (duplicate_message_handling initialCacheState [1]
      ⟨"text", "hi", none, none, some "c1"⟩ (1/2) "ts" "tmp" (.ok "ans")
      ⟨[], [(("c1", "text", ⟨"text", "hi", none⟩), 0)], ⟨[], 1⟩⟩ 0
      (by decide) (by norm_num)).2 "c1" "text" ⟨"text", "hi", none⟩ (1/2) [] rfl

/-- C3 counterexample: a character-lookup request for id 99, absent from
the source while the service itself is available, receives an HTTP 404
error response with `success = false` and no fallback data — not a
non-error response with fallback values. -/
theorem lookup_notfound_counterexample :
    (validate_character true (some 99) (fun _ => none)).status = 404 ∧
    (validate_character true (some 99) (fun _ => none)).success = false ∧
    (validate_character true (some 99) (fun _ => none)).data = none :=
  ⟨rfl, rfl, rfl⟩

/-- C3 amended: a chat request never fails because of cache or
remote-character-source problems — whatever the cache state (empty, stale,
or carrying a recorded refresh error), a non-duplicate chat request of a
supported type whose model call succeeds is answered with `success = true`
and no error, and when the served character id is absent from the snapshot
the response silently carries the fallback label and default voice id; a
character-lookup request whose id is absent from the source, however,
receives a 404 error response with no fallback data, so not-found detail is
exposed there and not only via the cache-status endpoint. -/
theorem chat_fallback_lookup_notfound
    (cache : CacheState) (avail : List Int) (req : ChatRequest) (now : ℚ)
    (nowIso tempId : String) (answer : String) (st : ServerState)
    (cid : Int) (fetch : Int → Option RawRow)
    (hnd : (isDuplicateMessage (req.connectionId.getD "anonymous") req.reqType
        ⟨req.reqType, req.text, req.characterId⟩ now st.recentMessages).1 = false)
    (htype : req.reqType = "text" ∨ req.reqType = "gemini_chat")
    (hnf : fetch cid = none) :
    ((chatHandler cache avail req now nowIso tempId (.ok answer) st).1.success = true ∧
     (chatHandler cache avail req now nowIso tempId (.ok answer) st).1.error = none) ∧
    (∀ c, (chatHandler cache avail req now nowIso tempId (.ok answer) st).1.characterId =
        some c →
      cache.lookup c = none →
      (chatHandler cache avail req now nowIso tempId (.ok answer) st).1.characterName =
        some fallbackLabel ∧
      (chatHandler cache avail req now nowIso tempId (.ok answer) st).1.voiceId =
        some defaultVoiceId) ∧
    validate_character true (some cid) fetch =
      { status := 404, success := false
        message := some ("Character ID " ++ toString cid ++ " not found"), data := none } := by
  obtain ⟨rt, tx, rcid, rstr, rconn⟩ := req
  refine ⟨?_, ?_, ?_⟩
  · rcases htype with h | h <;> subst h <;> simp [chatHandler, hnd]
  · intro c hc hlk
    rcases htype with h | h <;> subst h <;>
      simp [chatHandler, hnd] at hc ⊢ <;>
      rw [hc] at * <;>
      simp [nameFor, voiceIdFor, hlk]
  · simp [validate_character, hnf]

/-- C3 amended witness: with an entirely empty cache, a concrete chat
request is answered with `success = true`, no error, the fallback character
name and the default voice id; and a concrete lookup of absent id 99 gets
the 404 error response. -/
theorem chat_fallback_lookup_notfound_witness :
    ((chatHandler initialCacheState [1] ⟨"text", "hi", none, none, some "c1"⟩
        0 "ts" "tmp" (.ok "ans") ⟨[], [], ⟨[], 1⟩⟩).1.success = true ∧
     (chatHandler initialCacheState [1] ⟨"text", "hi", none, none, some "c1"⟩
        0 "ts" "tmp" (.ok "ans") ⟨[], [], ⟨[], 1⟩⟩).1.error = none) ∧
    ((chatHandler initialCacheState [1] ⟨"text", "hi", none, none, some "c1"⟩
        0 "ts" "tmp" (.ok "ans") ⟨[], [], ⟨[], 1⟩⟩).1.characterName =
      some fallbackLabel ∧
     (chatHandler initialCacheState [1] ⟨"text", "hi", none, none, some "c1"⟩
        0 "ts" "tmp" (.ok "ans") ⟨[], [], ⟨[], 1⟩⟩).1.voiceId =
      some defaultVoiceId) ∧
    validate_character true (some 99) (fun _ => none) =
      { status := 404, success := false
        message := some ("Character ID " ++ toString (99 : Int) ++ " not found")
        data := none } := by
  refine ⟨?_, ?_, ?_⟩
  · exact (chat_fallback_lookup_notfound initialCacheState [1]
      ⟨"text", "hi", none, none, some "c1"⟩ 0 "ts" "tmp" "ans"
      ⟨[], [], ⟨[], 1⟩⟩ 99 (fun _ => none) rfl (Or.inl rfl) rfl).1
  · exact (chat_fallback_lookup_notfound initialCacheState [1]
      ⟨"text", "hi", none, none, some "c1"⟩ 0 "ts" "tmp" "ans"
      ⟨[], [], ⟨[], 1⟩⟩ 99 (fun _ => none) rfl (Or.inl rfl) rfl).2.1 1
      (by decide) rfl
  · exact (chat_fallback_lookup_notfound initialCacheState [1]
      ⟨"text", "hi", none, none, some "c1"⟩ 0 "ts" "tmp" "ans"
      ⟨[], [], ⟨[], 1⟩⟩ 99 (fun _ => none) rfl (Or.inl rfl) rfl).2.2

